import Mathlib

/-!
Shallow embedding of the project-generation engine of `create-expo-jmobile`
(`src/index.js`) and proofs about it.

The generator collects prompt answers (app name, font, two optional colors,
`needsAuth`, and — only when `needsAuth` is answered `true` — `needsBottomTabs`),
resolves a theme palette, and writes a deterministic set of template files.
The embedding below translates, from the source:

* the app-name `validate` callback of the first prompt (lines 17-25);
* the conditional prompt flow, where the `needsBottomTabs` question has
  `type: (prev) => (prev ? "confirm" : null)` and is skipped (its key is
  absent from the response object) when `needsAuth` is `false` (lines 58-63);
* the `colors` object derived with JavaScript `||` defaulting (lines 68-79);
* the scheme derivation and the two manifest edits (lines 148-150, 1200-1203);
* the set of relative file paths written by the run, including the two
  independent conditional branches on `needsAuth` (line 543) and
  `needsBottomTabs` (line 754);
* the template texts needed by the claims: the login page, the signup page,
  the Button component, and the root-layout template with its interpolations.

Several proofs evaluate substring searches over the embedded template texts by
kernel reduction, which recurses once per character; the recursion-depth limit
is raised accordingly.
-/

set_option maxRecDepth 100000

set_option maxHeartbeats 4000000

/-- Decides whether the character list `p` occurs at the head of `l`. -/
def startsWithChars : List Char → List Char → Bool
  | [], _ => true
  | _ :: _, [] => false
  | p :: ps, c :: cs => p == c && startsWithChars ps cs

/-- Decides whether `p` occurs contiguously anywhere inside `l`. -/
def occursIn (p : List Char) : List Char → Bool
  | [] => startsWithChars p []
  | c :: cs => startsWithChars p (c :: cs) || occursIn p cs

/-- Substring test on strings, mirroring JavaScript `String.prototype.includes`. -/
def containsSub (s pat : String) : Bool := occursIn pat.data s.data

/-- Number of positions of `l` (excluding the end position) at which `p`
starts, accumulated tail-recursively. -/
def occCount (p : List Char) : List Char → Nat → Nat
  | [], acc => acc
  | c :: cs, acc => occCount p cs (if startsWithChars p (c :: cs) then acc + 1 else acc)

/-- Number of occurrences of a nonempty pattern `pat` in `s`. -/
def countSub (s pat : String) : Nat := occCount pat.data s.data 0

/-- The five font choices offered by the font select prompt (src/index.js lines 27-39). -/
inductive Font where
  | inter
  | poppins
  | montserrat
  | roboto
  | lato
deriving DecidableEq

/-- The `value` string attached to each font choice of the select prompt. -/
def Font.name : Font → String
  | Font.inter => "Inter"
  | Font.poppins => "Poppins"
  | Font.montserrat => "Montserrat"
  | Font.roboto => "Roboto"
  | Font.lato => "Lato"

/-- ASCII lowercasing of a string, modelling JavaScript `toLowerCase()` on the
ASCII inputs the generator manipulates (valid app names and the five font
names are ASCII-only). -/
def jsToLower (s : String) : String := ⟨s.data.map Char.toLower⟩

/-- Character class of the app-name regex `[a-zA-Z0-9-_]` (src/index.js line 21). -/
def isAllowedNameChar (c : Char) : Bool :=
  ('a' ≤ c && c ≤ 'z') || ('A' ≤ c && c ≤ 'Z') || ('0' ≤ c && c ≤ '9') || c == '-' || c == '_'

/-- The JavaScript test `/^[a-zA-Z0-9-_]+$/.test(value)`: the whole string is a
nonempty run of allowed characters (JavaScript `$` without the `m` flag matches
only at the very end of the string). -/
def nameOk (value : String) : Bool := !value.data.isEmpty && value.data.all isAllowedNameChar

/-- Result of the prompt `validate` callback: `true` on success, an error
message string otherwise. -/
inductive ValidateResult where
  | ok : ValidateResult
  | err : String → ValidateResult
deriving DecidableEq

/-- The `validate` callback of the app-name prompt (src/index.js lines 17-25):
first rejects names containing a space (`value.includes(" ")`), then rejects
names failing the allowed-character regex. -/
def validateAppName (value : String) : ValidateResult :=
  if value.data.any (fun c => c == ' ') then
    ValidateResult.err "App name cannot contain spaces. Use hyphens or underscores instead."
  else if !(nameOk value) then
    ValidateResult.err "App name can only contain letters, numbers, hyphens, and underscores."
  else ValidateResult.ok

/-- The ten named color slots of the resolved palette (src/index.js lines 68-79). -/
structure Colors where
  primary : String
  secondary : String
  success : String
  warning : String
  error : String
  background : String
  surface : String
  text : String
  textSecondary : String
  border : String
deriving DecidableEq

/-- JavaScript `||` on strings: the only falsy string is `""`, so
`s || d` is `d` exactly when `s` is empty. -/
def jsOrElse (s d : String) : String := if s = "" then d else s

/-- The `colors` object (src/index.js lines 68-79): `primary` and `secondary`
take the user-supplied values via `||` defaulting, every other slot is a fixed
constant. -/
def resolveColors (primaryColor secondaryColor : String) : Colors :=
  { primary := jsOrElse primaryColor "#3B82F6"
    secondary := jsOrElse secondaryColor "#6B7280"
    success := "#10B981"
    warning := "#F59E0B"
    error := "#EF4444"
    background := "#F9FAFB"
    surface := "#FFFFFF"
    text := "#111827"
    textSecondary := "#6B7280"
    border := "#E5E7EB" }

/-- The canonical configuration record driving generation, with the
destructured response values (src/index.js line 66); `needsBottomTabs` holds
the boolean the run's conditions actually see. -/
structure Config where
  appName : String
  font : Font
  primaryColor : String
  secondaryColor : String
  needsAuth : Bool
  needsBottomTabs : Bool
deriving DecidableEq

/-- Raw answers produced by the interactive prompt sequence. The
`needsBottomTabsAnswer` field is `none` when the tabs question was skipped
(its `type` callback returned `null`), in which case the key is absent from
the response object and the destructured variable is `undefined`. -/
structure PromptAnswers where
  appName : String
  font : Font
  primaryColor : String
  secondaryColor : String
  needsAuth : Bool
  needsBottomTabsAnswer : Option Bool
deriving DecidableEq

/-- The prompt flow (src/index.js lines 11-64): the tabs question has
`type: (prev) => (prev ? "confirm" : null)`, so it is asked (yielding
`tabsAnswer`) only when `needsAuth` is `true`, and skipped otherwise. -/
def promptFlow (appName : String) (font : Font) (primaryColor secondaryColor : String)
    (needsAuth tabsAnswer : Bool) : PromptAnswers :=
  { appName := appName
    font := font
    primaryColor := primaryColor
    secondaryColor := secondaryColor
    needsAuth := needsAuth
    needsBottomTabsAnswer := if needsAuth then some tabsAnswer else none }

/-- JavaScript truthiness of a possibly-`undefined` boolean: `undefined` is falsy. -/
def jsTruthy : Option Bool → Bool
  | some b => b
  | none => false

/-- Builds the configuration record from the raw answers. Every use of
`needsBottomTabs` in the run is a JavaScript condition, so the truthiness of
the possibly-absent answer is resolved here. -/
def buildConfig (a : PromptAnswers) : Config :=
  { appName := a.appName
    font := a.font
    primaryColor := a.primaryColor
    secondaryColor := a.secondaryColor
    needsAuth := a.needsAuth
    needsBottomTabs := jsTruthy a.needsBottomTabsAnswer }

/-- The prompt library re-asks the app-name question while `validate` returns
an error message, so the body of `run` only ever executes with a valid app
name: an invalid name yields no configuration (and hence no plan). -/
def promptGate (a : PromptAnswers) : Option Config :=
  match validateAppName a.appName with
  | ValidateResult.ok => some (buildConfig a)
  | ValidateResult.err _ => none

/-- Relative paths of the files written by the run (src/index.js, steps 3-17),
in execution order: the unconditional files of steps 3 and 6-9, the auth pages
of step 10 (guarded by `needsAuth`, line 543), the step-11 branch (tab layout
plus four tab screens when `needsBottomTabs` is truthy, line 754; otherwise the
bare `app/index.tsx` home screen, line 1092), and the unconditional files of
steps 12-17. -/
def planPaths (needsAuth needsBottomTabs : Bool) : List String :=
  ["tailwind.config.js", "constants/theme.ts",
   "components/ui/Text.tsx", "components/ui/Button.tsx", "components/ui/TextField.tsx",
   "components/ui/SafeAreaLayout.tsx", "components/ui/FullScreenLayout.tsx",
   "components/ui/index.ts"]
  ++ (if needsAuth then ["app/login.tsx", "app/signup.tsx"] else [])
  ++ (if needsBottomTabs then
        ["app/(tabs)/_layout.tsx", "app/(tabs)/index.tsx", "app/(tabs)/explore.tsx",
         "app/(tabs)/notifications.tsx", "app/(tabs)/profile.tsx"]
      else ["app/index.tsx"])
  ++ ["app/_layout.tsx", "global.css", "metro.config.js", "hooks/useTheme.ts",
      "utils/validation.ts"]

/-- The plan's path set as determined by a configuration record. -/
def planPathsCfg (cfg : Config) : List String := planPaths cfg.needsAuth cfg.needsBottomTabs

/-- The plan produced for raw prompt answers, `none` when validation rejects
the app name. -/
def planForAnswers (a : PromptAnswers) : Option (List String) :=
  (promptGate a).map planPathsCfg

/-- Whether a planned path is one of the two auth pages. -/
def isAuthFile (p : String) : Bool := p == "app/login.tsx" || p == "app/signup.tsx"

/-- Whether a planned path lives under the `(tabs)` route group. -/
def isTabFile (p : String) : Bool := startsWithChars "app/(tabs)/".data p.data

/-- Characters kept by `replace(/[^a-z0-9]/g, "")` (src/index.js line 149). -/
def isSchemeChar (c : Char) : Bool := ('a' ≤ c && c ≤ 'z') || ('0' ≤ c && c ≤ '9')

/-- `appName.toLowerCase().replace(/[^a-z0-9]/g, "")` (src/index.js line 149). -/
def deriveScheme (appName : String) : String := ⟨(jsToLower appName).data.filter isSchemeChar⟩

/-- The routing-configuration manifest (`app.json`), reduced to the field the
generator touches. -/
structure ExpoManifest where
  scheme : Option String
deriving DecidableEq

/-- The project manifest (`package.json`), reduced to the field the generator
touches. -/
structure PackageManifest where
  main : Option String
deriving DecidableEq

/-- Step 4 (src/index.js lines 148-150): overwrite `expo.scheme` with the
derived scheme. -/
def editExpoManifest (appName : String) (m : ExpoManifest) : ExpoManifest :=
  { m with scheme := some (deriveScheme appName) }

/-- Step 18 (src/index.js lines 1200-1203): overwrite `main` with the fixed
root-layout path. -/
def editPackageManifest (m : PackageManifest) : PackageManifest :=
  { m with main := some "./app/_layout.tsx" }

/-- The login page template (src/index.js lines 545-634). The source template
literal contains no interpolation, so the rendered file content is this
constant for every configuration. -/
def loginPage : String := String.intercalate "\n" [
  "",
  "import React from \"react\";",
  "import \x7b View \x7d from \"react-native\";",
  "import \x7b useForm \x7d from \"react-hook-form\";",
  "import \x7b Link, router \x7d from \"expo-router\";",
  "import \x7b FullScreenLayout, Text, TextField, Button \x7d from \"../../components/ui\";",
  "",
  "interface LoginForm \x7b",
  "  email: string;",
  "  password: string;",
  "\x7d",
  "",
  "export default function LoginPage() \x7b",
  "  const \x7b control, handleSubmit, formState: \x7b errors \x7d \x7d = useForm<LoginForm>();",
  "",
  "  const onSubmit = (data: LoginForm) => \x7b",
  "    console.log(\"Login data:\", data);",
  "    // TODO: Implement authentication logic",
  "    router.replace(\"/(tabs)\");",
  "  \x7d;",
  "",
  "  return (",
  "    <FullScreenLayout>",
  "      <View className=\"flex-1 justify-center px-6\">",
  "        <View className=\"mb-8\">",
  "          <Text variant=\"heading\" className=\"text-center mb-2\">",
  "            Welcome Back",
  "          </Text>",
  "          <Text variant=\"body\" color=\"textSecondary\" className=\"text-center\">",
  "            Sign in to your account",
  "          </Text>",
  "        </View>",
  "",
  "        <View className=\"mb-6\">",
  "          <TextField",
  "            control=\x7bcontrol\x7d",
  "            name=\"email\"",
  "            label=\"Email\"",
  "            placeholder=\"Enter your email\"",
  "            keyboardType=\"email-address\"",
  "            autoCapitalize=\"none\"",
  "            rules=\x7b\x7b ",
  "              required: \"Email is required\",",
  "              pattern: \x7b",
  "                value: /^[A-Z0-9._%+-]+@[A-Z0-9.-]+\\.[A-Z]\x7b2,\x7d$/i,",
  "                message: \"Invalid email address\"",
  "              \x7d",
  "            \x7d\x7d",
  "          />",
  "          ",
  "          <TextField",
  "            control=\x7bcontrol\x7d",
  "            name=\"password\"",
  "            label=\"Password\"",
  "            placeholder=\"Enter your password\"",
  "            secureTextEntry",
  "            rules=\x7b\x7b ",
  "              required: \"Password is required\",",
  "              minLength: \x7b",
  "                value: 6,",
  "                message: \"Password must be at least 6 characters\"",
  "              \x7d",
  "            \x7d\x7d",
  "          />",
  "        </View>",
  "",
  "        <Button",
  "          title=\"Sign In\"",
  "          onPress=\x7bhandleSubmit(onSubmit)\x7d",
  "          variant=\"primary\"",
  "          size=\"lg\"",
  "          fullWidth",
  "          className=\"mb-4\"",
  "        />",
  "",
  "        <View className=\"flex-row justify-center\">",
  "          <Text variant=\"body\" color=\"textSecondary\">",
  "            Don\x27t have an account?\x7b\" \"\x7d",
  "          </Text>",
  "          <Link href=\"/signup\" asChild>",
  "            <Text variant=\"body\" color=\"primary\" weight=\"medium\">",
  "              Sign up",
  "            </Text>",
  "          </Link>",
  "        </View>",
  "      </View>",
  "    </FullScreenLayout>",
  "  );",
  "\x7d",
  ""]

/-- The signup page template (src/index.js lines 637-749). The source template
literal contains no interpolation, so the rendered file content is this
constant for every configuration. -/
def signupPage : String := String.intercalate "\n" [
  "",
  "import React from \"react\";",
  "import \x7b View \x7d from \"react-native\";",
  "import \x7b useForm \x7d from \"react-hook-form\";",
  "import \x7b Link, router \x7d from \"expo-router\";",
  "import \x7b FullScreenLayout, Text, TextField, Button \x7d from \"../../components/ui\";",
  "",
  "interface SignupForm \x7b",
  "  name: string;",
  "  email: string;",
  "  password: string;",
  "  confirmPassword: string;",
  "\x7d",
  "",
  "export default function SignupPage() \x7b",
  "  const \x7b control, handleSubmit, watch, formState: \x7b errors \x7d \x7d = useForm<SignupForm>();",
  "  const password = watch(\"password\");",
  "",
  "  const onSubmit = (data: SignupForm) => \x7b",
  "    console.log(\"Signup data:\", data);",
  "    // TODO: Implement registration logic",
  "    router.replace(\"/(tabs)\");",
  "  \x7d;",
  "",
  "  return (",
  "    <FullScreenLayout>",
  "      <View className=\"flex-1 justify-center px-6\">",
  "        <View className=\"mb-8\">",
  "          <Text variant=\"heading\" className=\"text-center mb-2\">",
  "            Create Account",
  "          </Text>",
  "          <Text variant=\"body\" color=\"textSecondary\" className=\"text-center\">",
  "            Join us today",
  "          </Text>",
  "        </View>",
  "",
  "        <View className=\"mb-6\">",
  "          <TextField",
  "            control=\x7bcontrol\x7d",
  "            name=\"name\"",
  "            label=\"Full Name\"",
  "            placeholder=\"Enter your full name\"",
  "            rules=\x7b\x7b required: \"Name is required\" \x7d\x7d",
  "          />",
  "          ",
  "          <TextField",
  "            control=\x7bcontrol\x7d",
  "            name=\"email\"",
  "            label=\"Email\"",
  "            placeholder=\"Enter your email\"",
  "            keyboardType=\"email-address\"",
  "            autoCapitalize=\"none\"",
  "            rules=\x7b\x7b ",
  "              required: \"Email is required\",",
  "              pattern: \x7b",
  "                value: /^[A-Z0-9._%+-]+@[A-Z0-9.-]+\\.[A-Z]\x7b2,\x7d$/i,",
  "                message: \"Invalid email address\"",
  "              \x7d",
  "            \x7d\x7d",
  "          />",
  "          ",
  "          <TextField",
  "            control=\x7bcontrol\x7d",
  "            name=\"password\"",
  "            label=\"Password\"",
  "            placeholder=\"Enter your password\"",
  "            secureTextEntry",
  "            rules=\x7b\x7b ",
  "              required: \"Password is required\",",
  "              minLength: \x7b",
  "                value: 6,",
  "                message: \"Password must be at least 6 characters\"",
  "              \x7d",
  "            \x7d\x7d",
  "          />",
  "",
  "          <TextField",
  "            control=\x7bcontrol\x7d",
  "            name=\"confirmPassword\"",
  "            label=\"Confirm Password\"",
  "            placeholder=\"Confirm your password\"",
  "            secureTextEntry",
  "            rules=\x7b\x7b ",
  "              required: \"Please confirm your password\",",
  "              validate: (value) => value === password || \"Passwords do not match\"",
  "            \x7d\x7d",
  "          />",
  "        </View>",
  "",
  "        <Button",
  "          title=\"Create Account\"",
  "          onPress=\x7bhandleSubmit(onSubmit)\x7d",
  "          variant=\"primary\"",
  "          size=\"lg\"",
  "          fullWidth",
  "          className=\"mb-4\"",
  "        />",
  "",
  "        <View className=\"flex-row justify-center\">",
  "          <Text variant=\"body\" color=\"textSecondary\">",
  "            Already have an account?\x7b\" \"\x7d",
  "          </Text>",
  "          <Link href=\"/login\" asChild>",
  "            <Text variant=\"body\" color=\"primary\" weight=\"medium\">",
  "              Sign in",
  "            </Text>",
  "          </Link>",
  "        </View>",
  "      </View>",
  "    </FullScreenLayout>",
  "  );",
  "\x7d",
  ""]

/-- The two auth pages written when `needsAuth` is truthy (src/index.js
lines 543-751); nothing is written otherwise. -/
def authFiles (needsAuth : Bool) : List (String × String) :=
  if needsAuth then [("app/login.tsx", loginPage), ("app/signup.tsx", signupPage)] else []

/-- The Button component template (src/index.js lines 276-377). Every dollar
sign and backtick of the source template literal is escaped there, so the
rendered file content is this constant for every configuration: no theme value
is interpolated. -/
def buttonComponent : String := String.intercalate "\n" [
  "",
  "import React from \"react\";",
  "import \x7b TouchableOpacity, TouchableOpacityProps, ActivityIndicator \x7d from \"react-native\";",
  "import Text from \"./Text\";",
  "",
  "interface ButtonProps extends TouchableOpacityProps \x7b",
  "  title: string;",
  "  variant?: \"primary\" | \"secondary\" | \"outline\" | \"ghost\" | \"danger\";",
  "  size?: \"sm\" | \"md\" | \"lg\";",
  "  loading?: boolean;",
  "  fullWidth?: boolean;",
  "\x7d",
  "",
  "const Button: React.FC<ButtonProps> = (\x7b",
  "  title,",
  "  variant = \"primary\",",
  "  size = \"md\",",
  "  loading = false,",
  "  fullWidth = false,",
  "  disabled,",
  "  className = \"\",",
  "  ...props",
  "\x7d) => \x7b",
  "  const getVariantStyle = () => \x7b",
  "    switch (variant) \x7b",
  "      case \"primary\":",
  "        return \"bg-primary\";",
  "      case \"secondary\":",
  "        return \"bg-secondary\";",
  "      case \"outline\":",
  "        return \"bg-transparent border-2 border-primary\";",
  "      case \"ghost\":",
  "        return \"bg-transparent\";",
  "      case \"danger\":",
  "        return \"bg-error\";",
  "      default:",
  "        return \"bg-primary\";",
  "    \x7d",
  "  \x7d;",
  "",
  "  const getSizeStyle = () => \x7b",
  "    switch (size) \x7b",
  "      case \"sm\":",
  "        return \"px-3 py-2 rounded-lg\";",
  "      case \"md\":",
  "        return \"px-4 py-3 rounded-xl\";",
  "      case \"lg\":",
  "        return \"px-6 py-4 rounded-2xl\";",
  "      default:",
  "        return \"px-4 py-3 rounded-xl\";",
  "    \x7d",
  "  \x7d;",
  "",
  "  const getTextColor = () => \x7b",
  "    switch (variant) \x7b",
  "      case \"outline\":",
  "      case \"ghost\":",
  "        return \"primary\";",
  "      default:",
  "        return \"surface\";",
  "    \x7d",
  "  \x7d;",
  "",
  "  const getTextSize = () => \x7b",
  "    switch (size) \x7b",
  "      case \"sm\":",
  "        return \"caption\";",
  "      case \"md\":",
  "        return \"body\";",
  "      case \"lg\":",
  "        return \"subheading\";",
  "      default:",
  "        return \"body\";",
  "    \x7d",
  "  \x7d;",
  "",
  "  const isDisabled = disabled || loading;",
  "  const widthStyle = fullWidth ? \"w-full\" : \"\";",
  "  const opacityStyle = isDisabled ? \"opacity-50\" : \"\";",
  "  ",
  "  const combinedClassName = \x60$\x7bgetVariantStyle()\x7d $\x7bgetSizeStyle()\x7d $\x7bwidthStyle\x7d $\x7bopacityStyle\x7d $\x7bclassName\x7d\x60;",
  "",
  "  return (",
  "    <TouchableOpacity",
  "      disabled=\x7bisDisabled\x7d",
  "      className=\x7bcombinedClassName\x7d",
  "      \x7b...props\x7d",
  "    >",
  "      \x7bloading ? (",
  "        <ActivityIndicator color=\x7bvariant === \"outline\" || variant === \"ghost\" ? colors.primary : colors.surface\x7d />",
  "      ) : (",
  "        <Text variant=\x7bgetTextSize()\x7d color=\x7bgetTextColor()\x7d weight=\"semibold\" className=\"text-center\">",
  "          \x7btitle\x7d",
  "        </Text>",
  "      )\x7d",
  "    </TouchableOpacity>",
  "  );",
  "\x7d;",
  "",
  "export default Button;",
  ""]

/-- The rendered Button component file: the same constant for every
configuration (the template interpolates nothing). -/
def renderButton (_cfg : Config) : String := buttonComponent

/-- Root-layout template (src/index.js lines 1096-1135), part before the first
font interpolation. -/
def mainLayoutHead : String := String.intercalate "\n" [
  "",
  "import React, \x7b useEffect \x7d from \"react\";",
  "import \x7b Stack \x7d from \"expo-router\";",
  "import \x7b useFonts \x7d from \"expo-font\";",
  "import \x7b SplashScreen \x7d from \"expo-splash-screen\";",
  "import \"../global.css\";",
  "",
  "// Keep the splash screen visible while we fetch resources",
  "SplashScreen.preventAutoHideAsync();",
  "",
  "export default function RootLayout() \x7b",
  "  const [loaded, error] = useFonts(\x7b",
  "    \""]

/-- Root-layout template, part between the font interpolations and the
conditional screen list. -/
def mainLayoutMid : String := String.intercalate "\n" [
  "",
  "  \x7d);",
  "",
  "  useEffect(() => \x7b",
  "    if (loaded || error) \x7b",
  "      SplashScreen.hideAsync();",
  "    \x7d",
  "  \x7d, [loaded, error]);",
  "",
  "  if (!loaded && !error) \x7b",
  "    return null;",
  "  \x7d",
  "",
  "  return (",
  "    <Stack screenOptions=\x7b\x7b headerShown: false \x7d\x7d>",
  "      "]

/-- Screen list interpolated when `needsAuth` is truthy (src/index.js
lines 1123-1127): login, signup, and the `(tabs)` route group. -/
def stackScreensAuth : String := String.intercalate "\n" [
  "",
  "      <Stack.Screen name=\"login\" />",
  "      <Stack.Screen name=\"signup\" />",
  "      <Stack.Screen name=\"(tabs)\" options=\x7b\x7b headerShown: false \x7d\x7d />",
  "      "]

/-- Screen list interpolated when `needsAuth` is falsy and `needsBottomTabs`
is truthy (src/index.js lines 1127-1129). -/
def stackScreensTabs : String := String.intercalate "\n" [
  "",
  "      <Stack.Screen name=\"(tabs)\" options=\x7b\x7b headerShown: false \x7d\x7d />",
  "      "]

/-- Screen list interpolated when both flags are falsy (src/index.js
lines 1129-1131): the bare index screen. -/
def stackScreenIndex : String := String.intercalate "\n" [
  "",
  "      <Stack.Screen name=\"index\" />",
  "      "]

/-- Root-layout template, closing part. -/
def mainLayoutTail : String := String.intercalate "\n" [
  "",
  "    </Stack>",
  "  );",
  "\x7d",
  ""]

/-- The root-layout template (src/index.js lines 1096-1135): interpolates the
font name (verbatim and lowercased) into the `useFonts` call, and the screen
list chosen by `needsAuth ? ... : needsBottomTabs ? ... : ...`. -/
def mainLayout (font : Font) (needsAuth needsBottomTabs : Bool) : String :=
  mainLayoutHead ++ font.name ++ "\": require(\"expo-google-fonts/" ++ jsToLower font.name
    ++ "\")." ++ font.name ++ "," ++ mainLayoutMid
    ++ (if needsAuth then stackScreensAuth
        else if needsBottomTabs then stackScreensTabs
        else stackScreenIndex)
    ++ mainLayoutTail

/-- The rendered root layout (`app/_layout.tsx`) for a configuration. -/
def renderRootLayout (cfg : Config) : String :=
  mainLayout cfg.font cfg.needsAuth cfg.needsBottomTabs

/-- Two path lists denote the same path set. -/
def samePathSet (l₁ l₂ : List String) : Prop := ∀ p, p ∈ l₁ ↔ p ∈ l₂

/-- Helper: a string is empty exactly when its character list is. -/
theorem string_eq_empty_iff (s : String) : s = "" ↔ s.data = [] := by
  constructor
  · intro h
    rw [h]
  · intro h
    apply String.ext
    rw [h]

/-- C3 counterexample: building the configuration from a prompt flow with
`needsAuth = false` (tabs question skipped) yields `needsBottomTabs = false`,
not `true` as claimed. -/
theorem c3_counterexample :
    ¬ ((buildConfig (promptFlow "demo" Font.inter "" "" false true)).needsBottomTabs = true) := by
  decide

/-- C3 (amended): when the configuration is built from a prompt flow in which
`needsAuth` is `false`, the `needsBottomTabs` question is skipped and its key
is absent from the response; the destructured value is `undefined`, which is
falsy, so the resulting configuration has `needsBottomTabs = false`. -/
theorem c3_amended_tabs_default_false (n : String) (f : Font) (pc sc : String) (ta : Bool) :
    (buildConfig (promptFlow n f pc sc false ta)).needsBottomTabs = false := rfl

/-- C4: the plan's path set is a pure function of the pair
(`needsAuth`, `needsBottomTabs`) — two configurations agreeing on the two
booleans yield the same path list regardless of app name, font, or colors —
and the four boolean combinations yield four pairwise distinct path sets. -/
theorem c4_plan_pure_and_distinct :
    (∀ c₁ c₂ : Config, c₁.needsAuth = c₂.needsAuth → c₁.needsBottomTabs = c₂.needsBottomTabs →
      planPathsCfg c₁ = planPathsCfg c₂) ∧
    ¬ samePathSet (planPaths false false) (planPaths false true) ∧
    ¬ samePathSet (planPaths false false) (planPaths true false) ∧
    ¬ samePathSet (planPaths false false) (planPaths true true) ∧
    ¬ samePathSet (planPaths false true) (planPaths true false) ∧
    ¬ samePathSet (planPaths false true) (planPaths true true) ∧
    ¬ samePathSet (planPaths true false) (planPaths true true) := by
  refine ⟨?_, ?_, ?_, ?_, ?_, ?_, ?_⟩
  · intro c₁ c₂ h₁ h₂
    unfold planPathsCfg
    rw [h₁, h₂]
  · intro h
    have hh := h "app/index.tsx"
    revert hh
    decide
  · intro h
    have hh := h "app/login.tsx"
    revert hh
    decide
  · intro h
    have hh := h "app/login.tsx"
    revert hh
    decide
  · intro h
    have hh := h "app/login.tsx"
    revert hh
    decide
  · intro h
    have hh := h "app/login.tsx"
    revert hh
    decide
  · intro h
    have hh := h "app/index.tsx"
    revert hh
    decide

/-- C4 witness: two concrete configurations differing in app name, font and
colors but agreeing on the two booleans produce the same path list. -/
theorem c4_witness :
    planPathsCfg ⟨"appA", Font.inter, "", "", true, true⟩ =
      planPathsCfg ⟨"appB", Font.roboto, "#000000", "#FFFFFF", true, true⟩ :=
  c4_plan_pure_and_distinct.1 _ _ rfl rfl

/-- C5: theme resolution maps `primary`/`secondary` to the user-supplied
values exactly when those are non-empty and to the fixed defaults `#3B82F6` /
`#6B7280` otherwise, and every other color slot always equals its fixed
default, for every configuration. -/
theorem c5_theme_resolution (cfg : Config) :
    (cfg.primaryColor ≠ "" →
      (resolveColors cfg.primaryColor cfg.secondaryColor).primary = cfg.primaryColor) ∧
    (cfg.primaryColor = "" →
      (resolveColors cfg.primaryColor cfg.secondaryColor).primary = "#3B82F6") ∧
    (cfg.secondaryColor ≠ "" →
      (resolveColors cfg.primaryColor cfg.secondaryColor).secondary = cfg.secondaryColor) ∧
    (cfg.secondaryColor = "" →
      (resolveColors cfg.primaryColor cfg.secondaryColor).secondary = "#6B7280") ∧
    (resolveColors cfg.primaryColor cfg.secondaryColor).success = "#10B981" ∧
    (resolveColors cfg.primaryColor cfg.secondaryColor).warning = "#F59E0B" ∧
    (resolveColors cfg.primaryColor cfg.secondaryColor).error = "#EF4444" ∧
    (resolveColors cfg.primaryColor cfg.secondaryColor).background = "#F9FAFB" ∧
    (resolveColors cfg.primaryColor cfg.secondaryColor).surface = "#FFFFFF" ∧
    (resolveColors cfg.primaryColor cfg.secondaryColor).text = "#111827" ∧
    (resolveColors cfg.primaryColor cfg.secondaryColor).textSecondary = "#6B7280" ∧
    (resolveColors cfg.primaryColor cfg.secondaryColor).border = "#E5E7EB" := by
  refine ⟨?_, ?_, ?_, ?_, rfl, rfl, rfl, rfl, rfl, rfl, rfl, rfl⟩
  · intro h
    simp [resolveColors, jsOrElse, h]
  · intro h
    simp [resolveColors, jsOrElse, h]
  · intro h
    simp [resolveColors, jsOrElse, h]
  · intro h
    simp [resolveColors, jsOrElse, h]

/-- C5 witness (spec Scenario D): override `primaryColor = "#000000"` with an
empty `secondaryColor` resolves to `primary = "#000000"` and the default
`secondary = "#6B7280"`. -/
theorem c5_witness :
    (resolveColors "#000000" "").primary = "#000000" ∧
    (resolveColors "#000000" "").secondary = "#6B7280" :=
  ⟨(c5_theme_resolution ⟨"demo", Font.inter, "#000000", "", false, false⟩).1 (by decide),
   (c5_theme_resolution ⟨"demo", Font.inter, "#000000", "", false, false⟩).2.2.2.1 rfl⟩

/-- C6: app-name validation accepts a candidate exactly when it is a nonempty
string over `[A-Za-z0-9_-]`; a rejected name produces no configuration and no
file-tree plan, and an accepted name passes through to the configuration
unchanged. -/
theorem c6_app_name_validation (v : String) :
    (validateAppName v = ValidateResult.ok ↔
      (v ≠ "" ∧ ∀ c ∈ v.data, isAllowedNameChar c = true)) ∧
    (∀ (f : Font) (pc sc : String) (na ta : Bool), validateAppName v ≠ ValidateResult.ok →
      planForAnswers (promptFlow v f pc sc na ta) = none) ∧
    (∀ (f : Font) (pc sc : String) (na ta : Bool), validateAppName v = ValidateResult.ok →
      planForAnswers (promptFlow v f pc sc na ta) =
        some (planPathsCfg (buildConfig (promptFlow v f pc sc na ta))) ∧
      (buildConfig (promptFlow v f pc sc na ta)).appName = v) := by
  have key : validateAppName v = ValidateResult.ok ↔
      (v.data.any (fun c => c == ' ') = false ∧ nameOk v = true) := by
    unfold validateAppName
    cases hA : v.data.any (fun c => c == ' ') with
    | false =>
      cases hN : nameOk v with
      | false => simp [hA, hN]
      | true => simp [hA, hN]
    | true => simp [hA]
  refine ⟨?_, ?_, ?_⟩
  · rw [key]
    constructor
    · rintro ⟨_, hok⟩
      have hs := (Bool.and_eq_true _ _).mp hok
      constructor
      · intro hv
        rw [string_eq_empty_iff] at hv
        rw [hv] at hs
        exact absurd hs.1 (by decide)
      · intro c hc
        exact List.all_eq_true.mp hs.2 c hc
    · rintro ⟨hne, hall⟩
      have hallb : v.data.all isAllowedNameChar = true := List.all_eq_true.mpr hall
      constructor
      · cases hA : v.data.any (fun c => c == ' ') with
        | false => rfl
        | true =>
          obtain ⟨c, hc, hceq⟩ := List.any_eq_true.mp hA
          have hcsp : c = ' ' := by
            simpa using hceq
          have := hall c hc
          rw [hcsp] at this
          exact absurd this (by decide)
      · have hne' : v.data.isEmpty = false := by
          cases hd : v.data with
          | nil =>
            exact absurd ((string_eq_empty_iff v).mpr hd) hne
          | cons c cs => rfl
        unfold nameOk
        rw [hne', hallb]
        rfl
  · intro f pc sc na ta h
    unfold planForAnswers promptGate
    cases hV : validateAppName (promptFlow v f pc sc na ta).appName with
    | ok => exact absurd hV h
    | err m => rfl
  · intro f pc sc na ta h
    refine ⟨?_, rfl⟩
    unfold planForAnswers promptGate
    rw [show validateAppName (promptFlow v f pc sc na ta).appName = ValidateResult.ok from h]
    rfl

/-- C6 witness: `"my-expo-app"` is accepted, while `"my app"` (containing a
space) is rejected and yields no plan. -/
theorem c6_witness :
    validateAppName "my-expo-app" = ValidateResult.ok ∧
    planForAnswers (promptFlow "my app" Font.inter "" "" false false) = none :=
  ⟨(c6_app_name_validation "my-expo-app").1.mpr (by decide),
   (c6_app_name_validation "my app").2.1 Font.inter "" "" false false (by decide)⟩

/-- C7: for every valid app name, the manifest-edit steps set the routing
manifest's `scheme` to the app name lowercased with all non-alphanumeric
characters removed (`deriveScheme`), and the project manifest's `main` to the
fixed root-layout path `./app/_layout.tsx`; every character of the derived
scheme is a lowercase-alphanumeric character. -/
theorem c7_manifest_edits (name : String) (m : ExpoManifest) (p : PackageManifest)
    (h : validateAppName name = ValidateResult.ok) :
    (editExpoManifest name m).scheme = some (deriveScheme name) ∧
    (editPackageManifest p).main = some "./app/_layout.tsx" ∧
    (deriveScheme name).data = (jsToLower name).data.filter isSchemeChar ∧
    (deriveScheme name).data.all isSchemeChar = true := by
  refine ⟨rfl, rfl, rfl, ?_⟩
  apply List.all_eq_true.mpr
  intro c hc
  have hc' : c ∈ (jsToLower name).data.filter isSchemeChar := hc
  exact (List.mem_filter.mp hc').2

/-- C7 witness: for the valid app name `"demo"` the edits set
`scheme = deriveScheme "demo"` and `main = "./app/_layout.tsx"`. -/
theorem c7_witness :
    (editExpoManifest "demo" ⟨none⟩).scheme = some (deriveScheme "demo") ∧
    (editPackageManifest ⟨none⟩).main = some "./app/_layout.tsx" ∧
    (deriveScheme "demo").data = (jsToLower "demo").data.filter isSchemeChar ∧
    (deriveScheme "demo").data.all isSchemeChar = true :=
  c7_manifest_edits "demo" ⟨none⟩ ⟨none⟩ (by decide)

/-- C1 counterexample: a configuration with `needsAuth = false` but
`needsBottomTabs = true` (a combination the prompt flow never produces, but a
legal configuration record) makes the planner emit the tab group and no
`app/index.tsx`, refuting the claim's "regardless of the value of
`needsBottomTabs`". -/
theorem c1_counterexample :
    (⟨"demo", Font.inter, "", "", false, true⟩ : Config).needsAuth = false ∧
    (planPathsCfg ⟨"demo", Font.inter, "", "", false, true⟩).contains "app/index.tsx" = false ∧
    (planPathsCfg ⟨"demo", Font.inter, "", "", false, true⟩).contains
      "app/(tabs)/_layout.tsx" = true := by
  decide

/-- C1 (amended): for every configuration with `needsAuth = false` and
`needsBottomTabs = false` — which covers every configuration the prompt flow
can produce with `needsAuth = false`, since the skipped tabs answer is falsy —
the plan contains the single non-tabbed home screen `app/index.tsx` and no
login, signup, or tab files; the branch on `needsBottomTabs` is independent of
`needsAuth`, so `needsBottomTabs = true` would instead emit the tab group. -/
theorem c1_amended_plan_without_auth (cfg : Config) (h₁ : cfg.needsAuth = false)
    (h₂ : cfg.needsBottomTabs = false) :
    (planPathsCfg cfg).count "app/index.tsx" = 1 ∧
    (planPathsCfg cfg).all (fun p => !(isAuthFile p || isTabFile p)) = true := by
  unfold planPathsCfg
  rw [h₁, h₂]
  decide

/-- C1 witness: the amended statement evaluated at a concrete configuration
with both flags false. -/
theorem c1_witness :
    (planPathsCfg ⟨"demo", Font.inter, "", "", false, false⟩).count "app/index.tsx" = 1 ∧
    (planPathsCfg ⟨"demo", Font.inter, "", "", false, false⟩).all
      (fun p => !(isAuthFile p || isTabFile p)) = true :=
  c1_amended_plan_without_auth ⟨"demo", Font.inter, "", "", false, false⟩ rfl rfl

/-- C2 counterexample: for `needsAuth = true`, `needsBottomTabs = false`, the
rendered root layout references the `(tabs)` route group and does not
reference the bare index screen, refuting the claim's layout half. -/
theorem c2_counterexample :
    containsSub (renderRootLayout ⟨"demo", Font.inter, "", "", true, false⟩)
      "<Stack.Screen name=\"(tabs)\"" = true ∧
    containsSub (renderRootLayout ⟨"demo", Font.inter, "", "", true, false⟩)
      "<Stack.Screen name=\"index\"" = false := by
  decide

/-- C2 (amended): for `needsAuth = true` and `needsBottomTabs = false` the plan
includes the login and signup screens, no tab files, and the bare index screen
file; but the rendered root layout references the login and signup screens and
the `(tabs)` tab route group — not the bare index screen (the `needsAuth`
branch of the layout template always lists `(tabs)`). -/
theorem c2_amended_auth_no_tabs (cfg : Config) (h₁ : cfg.needsAuth = true)
    (h₂ : cfg.needsBottomTabs = false) :
    (planPathsCfg cfg).contains "app/login.tsx" = true ∧
    (planPathsCfg cfg).contains "app/signup.tsx" = true ∧
    (planPathsCfg cfg).all (fun p => !(isTabFile p)) = true ∧
    (planPathsCfg cfg).contains "app/index.tsx" = true ∧
    containsSub (renderRootLayout cfg) "<Stack.Screen name=\"login\" />" = true ∧
    containsSub (renderRootLayout cfg) "<Stack.Screen name=\"signup\" />" = true ∧
    containsSub (renderRootLayout cfg) "<Stack.Screen name=\"(tabs)\"" = true ∧
    containsSub (renderRootLayout cfg) "<Stack.Screen name=\"index\"" = false := by
  obtain ⟨n, f, pc, sc, na, nb⟩ := cfg
  have h₁' : na = true := h₁
  have h₂' : nb = false := h₂
  subst h₁' h₂'
  unfold planPathsCfg renderRootLayout
  dsimp only
  cases f <;> decide

/-- C2 witness: the amended statement evaluated at a concrete configuration. -/
theorem c2_witness :
    (planPathsCfg ⟨"demo", Font.inter, "", "", true, false⟩).contains "app/login.tsx" = true ∧
    (planPathsCfg ⟨"demo", Font.inter, "", "", true, false⟩).contains "app/signup.tsx" = true ∧
    (planPathsCfg ⟨"demo", Font.inter, "", "", true, false⟩).all
      (fun p => !(isTabFile p)) = true ∧
    (planPathsCfg ⟨"demo", Font.inter, "", "", true, false⟩).contains "app/index.tsx" = true ∧
    containsSub (renderRootLayout ⟨"demo", Font.inter, "", "", true, false⟩)
      "<Stack.Screen name=\"login\" />" = true ∧
    containsSub (renderRootLayout ⟨"demo", Font.inter, "", "", true, false⟩)
      "<Stack.Screen name=\"signup\" />" = true ∧
    containsSub (renderRootLayout ⟨"demo", Font.inter, "", "", true, false⟩)
      "<Stack.Screen name=\"(tabs)\"" = true ∧
    containsSub (renderRootLayout ⟨"demo", Font.inter, "", "", true, false⟩)
      "<Stack.Screen name=\"index\"" = false :=
  c2_amended_auth_no_tabs ⟨"demo", Font.inter, "", "", true, false⟩ rfl rfl

/-- C8: whenever `needsAuth = true` the login and signup pages are generated
with their constant template texts, and both navigate to the `/(tabs)` route
on successful form submission (`router.replace("/(tabs)");` inside
`onSubmit`), for every configuration — including `needsBottomTabs = false`,
where the plan contains no `(tabs)` route-group file at all. -/
theorem c8_auth_pages_navigate_tabs (cfg : Config) (h : cfg.needsAuth = true) :
    ("app/login.tsx", loginPage) ∈ authFiles cfg.needsAuth ∧
    ("app/signup.tsx", signupPage) ∈ authFiles cfg.needsAuth ∧
    containsSub loginPage "router.replace(\"/(tabs)\");" = true ∧
    containsSub signupPage "router.replace(\"/(tabs)\");" = true ∧
    (cfg.needsBottomTabs = false →
      (planPathsCfg cfg).all (fun p => !(isTabFile p)) = true) := by
  obtain ⟨n, f, pc, sc, na, nb⟩ := cfg
  have h' : na = true := h
  subst h'
  refine ⟨?_, ?_, ?_, ?_, ?_⟩
  · simp [authFiles]
  · simp [authFiles]
  · decide
  · decide
  · intro h₂
    have h₂' : nb = false := h₂
    subst h₂'
    unfold planPathsCfg
    dsimp only
    decide

/-- C8 witness: the statement evaluated at a concrete configuration with
`needsAuth = true` and `needsBottomTabs = false`, with the inner implication
discharged. -/
theorem c8_witness :
    ("app/login.tsx", loginPage) ∈ authFiles true ∧
    ("app/signup.tsx", signupPage) ∈ authFiles true ∧
    containsSub loginPage "router.replace(\"/(tabs)\");" = true ∧
    containsSub signupPage "router.replace(\"/(tabs)\");" = true ∧
    (planPathsCfg ⟨"demo", Font.inter, "", "", true, false⟩).all
      (fun p => !(isTabFile p)) = true :=
  ⟨(c8_auth_pages_navigate_tabs ⟨"demo", Font.inter, "", "", true, false⟩ rfl).1,
   (c8_auth_pages_navigate_tabs ⟨"demo", Font.inter, "", "", true, false⟩ rfl).2.1,
   (c8_auth_pages_navigate_tabs ⟨"demo", Font.inter, "", "", true, false⟩ rfl).2.2.1,
   (c8_auth_pages_navigate_tabs ⟨"demo", Font.inter, "", "", true, false⟩ rfl).2.2.2.1,
   (c8_auth_pages_navigate_tabs ⟨"demo", Font.inter, "", "", true, false⟩ rfl).2.2.2.2 rfl⟩

/-- C9: for every configuration the rendered Button component is the constant
template, which mentions the identifiers `colors.primary` and `colors.surface`
(in the loading-spinner branch) while the string `colors` occurs exactly
twice, i.e. only in those two references — so the file contains no definition
and no import of a `colors` binding — and no resolved theme color value (in
particular neither default `#3B82F6` nor `#FFFFFF`) is interpolated into it. -/
theorem c9_button_colors_unbound (cfg : Config) :
    renderButton cfg = buttonComponent ∧
    containsSub (renderButton cfg) "colors.primary" = true ∧
    containsSub (renderButton cfg) "colors.surface" = true ∧
    countSub (renderButton cfg) "colors" = 2 ∧
    containsSub (renderButton cfg) "const colors" = false ∧
    containsSub (renderButton cfg) "import colors" = false ∧
    containsSub (renderButton cfg) "#3B82F6" = false ∧
    containsSub (renderButton cfg) "#FFFFFF" = false :=
  ⟨rfl,
   (by decide : containsSub buttonComponent "colors.primary" = true),
   (by decide : containsSub buttonComponent "colors.surface" = true),
   (by decide : countSub buttonComponent "colors" = 2),
   (by decide : containsSub buttonComponent "const colors" = false),
   (by decide : containsSub buttonComponent "import colors" = false),
   (by decide : containsSub buttonComponent "#3B82F6" = false),
   (by decide : containsSub buttonComponent "#FFFFFF" = false)⟩

/-- C10: there is an app name accepted by validation (here `"_-_"`) whose
derived scheme — the name lowercased with non-alphanumerics stripped — is the
empty string, so a valid app name does not guarantee a non-empty scheme. -/
theorem c10_empty_scheme_for_valid_name :
    ∃ v : String, validateAppName v = ValidateResult.ok ∧ deriveScheme v = "" :=
  ⟨"_-_", by decide, by decide⟩
